import Mathlib

/-!
A shallow embedding of the publish-task scheduler and retry engine of the
`electron-vue-multi-browser-env` repository, together with proofs of the
specification claims about it.

The embedding covers:
* the content compliance checker (`src/main/utils/content-validator.js`):
  `checkSensitiveWords`, `validateContentFormat`, `validateContentCompliance`;
* the platform adapters (`src/main/services/platform-adapters.js`):
  `DouyinAdapter.publish`, `XiaohongshuAdapter.publish`, `ToutiaoAdapter.publish`,
  `mapApiError`, and the adapter registry;
* the alert reporter (`src/main/services/alert-reporter.js`): `isEnabled`, `notify`;
* the scheduler (`src/main/services/matrix-service.js`): `runDueTasks`,
  `cancelSchedule`, `retrySchedule`, `executeScheduleNow`, `sendAlert`.

Timestamps are modelled as natural numbers (milliseconds); network effects
(authentication, remote publish calls, alert webhooks) are modelled as explicit
oracle parameters recording the outcome of each external call.
-/

namespace Matrix

/-- Error values thrown by the JavaScript code.  `apiError` models a
`PlatformApiError` (which always carries a string `code` property);
`plainError` models a plain `Error` (no `code` property); `typeError` models a
`TypeError` raised by dereferencing `null`/`undefined` (no `code` property). -/
inductive JsError where
  | apiError (msg : String) (code : String)
  | plainError (msg : String)
  | typeError (msg : String)
  deriving Repr, DecidableEq

namespace JsError

/-- The `message` property of the thrown error. -/
def message : JsError → String
  | apiError m _ => m
  | plainError m => m
  | typeError m => m

/-- The `code` property of the thrown error (`undefined`, i.e. `none`, for
plain errors and type errors). -/
def codeProp : JsError → Option String
  | apiError _ c => some c
  | plainError _ => none
  | typeError _ => none

end JsError

/-- Whether `pat` is a prefix of `l`. -/
def listStartsWith : List Char → List Char → Bool
  | [], _ => true
  | _ :: _, [] => false
  | a :: as, b :: bs => a = b && listStartsWith as bs

/-- Whether `pat` occurs contiguously inside `l`. -/
def listHasSub : List Char → List Char → Bool
  | pat, [] => listStartsWith pat []
  | pat, b :: bs => listStartsWith pat (b :: bs) || listHasSub pat bs

/-- JavaScript substring containment, `s.includes(pat)`: the pattern occurs
contiguously in the string (the empty pattern is contained in every string). -/
def strContains (s pat : String) : Bool :=
  listHasSub pat.data s.data

/-- The default sensitive-word list of `content-validator.js`. -/
def defaultSensitiveWords : List String :=
  ["违禁词", "敏感内容", "政治", "暴力", "色情"]

/-- Result shape of `checkSensitiveWords`. -/
structure SensitiveCheck where
  hasSensitiveWords : Bool
  foundWords : List String
  deriving Repr, DecidableEq

/-- A JavaScript value passed as the `content` argument of
`checkSensitiveWords`: `null`/`undefined`, a string, or any non-string value
(number, object, array, ...). -/
inductive JsText where
  | jsNull
  | jsStr (s : String)
  | jsNonString
  deriving Repr, DecidableEq

/-- Embeds `checkSensitiveWords(content, wordList)`: falsy or non-string
content yields no matches; otherwise every word of the effective list (the
explicit `wordList` if given, else the module-global default) that occurs as a
substring is reported. -/
def checkSensitiveWords (content : JsText) (wordList : Option (List String)) :
    SensitiveCheck :=
  match content with
  | .jsNull => ⟨false, []⟩
  | .jsNonString => ⟨false, []⟩
  | .jsStr s =>
    if s = "" then ⟨false, []⟩
    else
      let wordsToCheck := wordList.getD defaultSensitiveWords
      let foundWords := wordsToCheck.filter (fun w => strContains s w)
      ⟨foundWords.length > 0, foundWords⟩

/-- Per-platform format limits, from the `PLATFORM_LIMITS` table. -/
structure PlatformLimits where
  titleMaxLength : Nat
  bodyMaxLength : Nat
  maxImages : Nat
  minImages : Nat
  deriving Repr, DecidableEq

/-- The `PLATFORM_LIMITS` configuration table of `content-validator.js`. -/
def platformLimits (platform : String) : Option PlatformLimits :=
  if platform = "抖音" then some ⟨55, 2000, 9, 1⟩
  else if platform = "小红书" then some ⟨20, 1000, 9, 1⟩
  else if platform = "头条" then some ⟨30, 5000, 20, 0⟩
  else none

/-- A content object as seen by the validator and the adapters.  Fields model
the JavaScript object properties; `none` stands for an absent property. -/
structure Content where
  title : Option String := none
  body : Option String := none
  images : Option (List String) := none
  videoUrl : Option String := none
  deriving Repr, DecidableEq

/-- JavaScript truthiness of an optional string property: absent and empty
strings are falsy. -/
def strTruthy (o : Option String) : Bool :=
  o.getD "" ≠ ""

/-- Structured embedding of the error strings pushed by
`validateContentFormat`; each constructor stands for one message shape. -/
inductive FormatError where
  | unsupportedPlatform (platform : String)
  | titleTooLong (max cur : Nat)
  | bodyTooLong (max cur : Nat)
  | tooFewImages (min cur : Nat)
  | tooManyImages (max cur : Nat)
  deriving Repr, DecidableEq

/-- Embeds `validateContentFormat(content, platform)`, returning the list of
format errors (the source returns `isValid := errors.length == 0` together
with this list).  A check only runs when the corresponding property is truthy,
exactly as in the source (`if (content.title) ...`); note that a present but
empty image array is truthy in JavaScript and is therefore checked. -/
def validateContentFormat (content : Content) (platform : String) :
    List FormatError :=
  match platformLimits platform with
  | none => [.unsupportedPlatform platform]
  | some limits =>
    let titleErrs :=
      if strTruthy content.title then
        let t := content.title.getD ""
        if t.length > limits.titleMaxLength then
          [FormatError.titleTooLong limits.titleMaxLength t.length]
        else []
      else []
    let bodyErrs :=
      if strTruthy content.body then
        let b := content.body.getD ""
        if b.length > limits.bodyMaxLength then
          [FormatError.bodyTooLong limits.bodyMaxLength b.length]
        else []
      else []
    let imageErrs :=
      match content.images with
      | none => []
      | some imgs =>
        (if imgs.length < limits.minImages then
          [FormatError.tooFewImages limits.minImages imgs.length]
        else []) ++
        (if imgs.length > limits.maxImages then
          [FormatError.tooManyImages limits.maxImages imgs.length]
        else [])
    titleErrs ++ bodyErrs ++ imageErrs

/-- The combined text scanned for sensitive words by
`validateContentCompliance`: title and body joined with a single space, with
falsy properties replaced by the empty string. -/
def fullTextOf (c : Content) : String :=
  c.title.getD "" ++ " " ++ c.body.getD ""

/-- Embeds `validateContentCompliance(content, platform, wordList)`.  A `none`
content models the JavaScript `null`/`undefined` argument: evaluating
`content.title` then raises a `TypeError` before any check runs.  Otherwise a
sensitive-word hit raises `CONTENT_VIOLATION`, then a failed format check
raises `INVALID_PAYLOAD`, and otherwise the function returns normally. -/
def validateContentCompliance (content : Option Content) (platform : String)
    (wordList : Option (List String)) : Except JsError Unit :=
  match content with
  | none => .error (.typeError "Cannot read properties of null (reading title)")
  | some c =>
    let sensitiveCheck := checkSensitiveWords (.jsStr (fullTextOf c)) wordList
    if sensitiveCheck.hasSensitiveWords then
      .error (.apiError
        ("内容包含敏感词: " ++ String.intercalate ", " sensitiveCheck.foundWords)
        "CONTENT_VIOLATION")
    else
      let formatErrors := validateContentFormat c platform
      if formatErrors.length = 0 then .ok ()
      else .error (.apiError "内容格式不符合要求" "INVALID_PAYLOAD")

/-- Run mode of a platform adapter. -/
inductive Mode where
  | mock
  | real
  deriving Repr, DecidableEq

/-- An account row as read by the scheduler (`SELECT id, platform, nickname`). -/
structure Account where
  id : String
  platform : String
  nickname : String
  deriving Repr, DecidableEq

/-- The observable part of a successful publish result (`{ok:true, platform,
remoteId, ...}`); only `remoteId` is consumed by the scheduler. -/
structure PublishOk where
  remoteId : Option String
  deriving Repr, DecidableEq

/-- Outcomes of the external network calls an adapter can make in `real`
mode.  Each field records the result the remote side would produce; mock-mode
paths never consult them. -/
structure NetEnv where
  authResult : Except JsError Unit := .ok ()
  remoteResult : Except JsError PublishOk := .error (.plainError "network unavailable")
  imageTextRemote : Except JsError PublishOk := .error (.plainError "network unavailable")
  videoRemote : Except JsError PublishOk := .error (.plainError "network unavailable")

/-- Embeds `BaseAdapter.mapApiError`: classify a raw error message into the
unified taxonomy by substring inspection, falling back to `REQUEST_FAILED`. -/
def mapApiError (raw : String) : JsError :=
  if strContains raw "AUTH" || strContains raw "UNAUTHORIZED" || strContains raw "401" then
    .apiError "鉴权失败，请检查签名与密钥" "AUTH_FAILED"
  else if strContains raw "RATE_LIMIT" || strContains raw "TOO_MANY_REQUESTS" || strContains raw "429" then
    .apiError "触发平台限流，请稍后重试" "RATE_LIMIT"
  else if strContains raw "INVALID_PAYLOAD" || strContains raw "INVALID_PARAM" || strContains raw "BAD_REQUEST" || strContains raw "400" then
    .apiError "请求参数无效，请检查内容格式" "INVALID_PAYLOAD"
  else if strContains raw "TIMEOUT" || strContains raw "ETIMEDOUT" || strContains raw "ECONNABORTED" then
    .apiError "请求超时，请检查网络连接" "TIMEOUT"
  else if strContains raw "CAPTCHA" || strContains raw "VERIFY" || strContains raw "验证码" then
    .apiError "平台要求验证码验证，需要人工介入" "CAPTCHA_REQUIRED"
  else if strContains raw "CONTENT_VIOLATION" || strContains raw "SENSITIVE" || strContains raw "违规" || strContains raw "敏感" then
    .apiError "内容包含违规信息，发布被拒绝" "CONTENT_VIOLATION"
  else
    .apiError ("平台请求失败: " ++ raw) "REQUEST_FAILED"

/-- Embeds `ensureAuthenticated`: in mock mode `authenticate` always succeeds
by synthesizing a token; in real mode the outcome of the remote credential
exchange is given by the environment. -/
def ensureAuthenticated (mode : Mode) (env : NetEnv) : Except JsError Unit :=
  match mode with
  | .mock => .ok ()
  | .real => env.authResult

/-- Embeds `DouyinAdapter.publishImageText` (compliance check, then mock
success or the remote image-text call). -/
def douyinPublishImageText (mode : Mode) (env : NetEnv) (now : Nat)
    (contentAsset : Option Content) : Except JsError PublishOk := do
  (ensureAuthenticated mode env)
  (validateContentCompliance contentAsset "抖音" none)
  match mode with
  | .mock => .ok ⟨some ("dy_imagetext_" ++ toString now)⟩
  | .real => env.imageTextRemote

/-- Embeds `DouyinAdapter.publishVideo` (required-field check on `videoUrl`,
compliance check, then mock success or the remote video call).  Reading
`contentAsset.videoUrl` on a `null` asset raises a `TypeError`. -/
def douyinPublishVideo (mode : Mode) (env : NetEnv) (now : Nat)
    (contentAsset : Option Content) : Except JsError PublishOk := do
  (ensureAuthenticated mode env)
  match contentAsset with
  | none => .error (.typeError "Cannot read properties of null (reading videoUrl)")
  | some c =>
    if strTruthy c.videoUrl then do
      (validateContentCompliance contentAsset "抖音" none)
      match mode with
      | .mock => .ok ⟨some ("dy_video_" ++ toString now)⟩
      | .real => env.videoRemote
    else
      .error (.apiError "视频内容缺少 videoUrl 字段" "INVALID_PAYLOAD")

/-- Embeds `DouyinAdapter.publish`: rate limit (timing only), authentication,
the content compliance check, then routing by content type; the mock generic
path treats the content type `模拟鉴权失败` as a forced auth failure. -/
def douyinPublish (mode : Mode) (env : NetEnv) (now : Nat) (account : Account)
    (contentType : String) (contentAsset : Option Content) :
    Except JsError PublishOk := do
  (ensureAuthenticated mode env)
  (validateContentCompliance contentAsset "抖音" none)
  if contentType = "image-text" ∨ contentType = "图文" then
    douyinPublishImageText mode env now contentAsset
  else if contentType = "video" ∨ contentType = "视频" then
    douyinPublishVideo mode env now contentAsset
  else
    match mode with
    | .real => env.remoteResult
    | .mock =>
      if contentType = "模拟鉴权失败" then
        .error (mapApiError "AUTH token expired")
      else
        .ok ⟨some ("dy-" ++ toString now)⟩

/-- Embeds `XiaohongshuAdapter.publish`: rate limit (timing only), then the
remote call in real mode, or the mock path with the forced rate-limit trigger.
No compliance check and no authentication happen on this adapter. -/
def xiaohongshuPublish (mode : Mode) (env : NetEnv) (now : Nat)
    (account : Account) (contentType : String) (contentAsset : Option Content) :
    Except JsError PublishOk :=
  match mode with
  | .real => env.remoteResult
  | .mock =>
    if contentType = "模拟限流失败" then
      .error (mapApiError "RATE_LIMIT reached")
    else
      .ok ⟨some ("xhs-" ++ toString now)⟩

/-- Embeds `ToutiaoAdapter.publish`: rate limit (timing only), then the remote
call in real mode, or the mock path with the forced invalid-payload trigger.
No compliance check and no authentication happen on this adapter. -/
def toutiaoPublish (mode : Mode) (env : NetEnv) (now : Nat)
    (account : Account) (contentType : String) (contentAsset : Option Content) :
    Except JsError PublishOk :=
  match mode with
  | .real => env.remoteResult
  | .mock =>
    if contentType = "模拟参数失败" then
      .error (mapApiError "INVALID_PAYLOAD body missing")
    else
      .ok ⟨some ("tt-" ++ toString now)⟩

/-- The type of an adapter `publish` entry point as invoked by the scheduler. -/
def PublishFn : Type :=
  Account → String → Option Content → Except JsError PublishOk

/-- Embeds `PlatformAdapterRegistry`: one adapter per known platform name;
`getAdapter` returns `none` for unknown platforms. -/
def adapterRegistry (mode : Mode) (env : NetEnv) (now : Nat) :
    String → Option PublishFn := fun platform =>
  if platform = "抖音" then some (douyinPublish mode env now)
  else if platform = "小红书" then some (xiaohongshuPublish mode env now)
  else if platform = "头条" then some (toutiaoPublish mode env now)
  else none

/-- The registry as built by `MatrixService.buildPlatformConfig` with default
environment (all three adapters in mock mode). -/
def mockRegistry (now : Nat) : String → Option PublishFn :=
  adapterRegistry .mock {} now

/-- Publish-task status values of the `schedules` table. -/
inductive Status where
  | scheduled
  | running
  | retrying
  | success
  | failed
  | cancelled
  deriving Repr, DecidableEq

/-- A status selected by the due-task query and accepted by `cancelSchedule`
(`status = 'scheduled' OR status = 'retrying'`). -/
def statusPending : Status → Bool
  | .scheduled => true
  | .retrying => true
  | _ => false

/-- A terminal status: `success`, `failed` or `cancelled`. -/
def statusTerminal : Status → Bool
  | .success => true
  | .failed => true
  | .cancelled => true
  | _ => false

/-- A row of the `schedules` table.  `publishAt` is `none` when the stored
timestamp text does not parse (`new Date(...).getTime()` is `NaN`). -/
structure Task where
  id : String
  accountId : String
  contentType : String
  contentAssetId : Option String := none
  publishAt : Option Nat
  status : Status := .scheduled
  createdAt : Nat := 0
  startedAt : Option Nat := none
  completedAt : Option Nat := none
  errorMessage : Option String := none
  retryCount : Nat := 0
  remoteId : Option String := none
  deriving Repr, DecidableEq

/-- A content-asset row as read by the scheduler
(`SELECT id, title, body FROM content_assets`); both text columns are
`NOT NULL`. -/
structure AssetRow where
  id : String
  title : String
  body : String
  deriving Repr, DecidableEq

/-- Task-log levels. -/
inductive LogLevel where
  | info
  | warn
  | error
  | alert
  deriving Repr, DecidableEq

/-- A row of the `task_logs` table; list position models `created_at` order
(logs are only ever appended). -/
structure LogEntry where
  taskId : String
  level : LogLevel
  message : String
  deriving Repr, DecidableEq

/-- A row of the `publish_metrics` table; list position models `created_at`
order.  The measured latency is abstracted to `0` (no claim depends on it). -/
structure Metric where
  taskId : String
  platform : String
  success : Bool
  errorCode : Option String
  latencyMs : Nat
  deriving Repr, DecidableEq

/-- One invocation of `AlertReporter.notify` by the scheduler, with the
fields of the `details` object (`none` models an absent property). -/
structure AlertCall where
  event : String
  taskId : String
  platform : Option String := none
  errorCode : Option String := none
  accountId : Option String := none
  deriving Repr, DecidableEq

/-- The persisted store read and mutated by the scheduler, plus the trace of
Alert Reporter invocations. -/
structure Store where
  accounts : List Account
  contentAssets : List AssetRow
  schedules : List Task
  taskLogs : List LogEntry
  metrics : List Metric
  alertCalls : List AlertCall
  deriving Repr, DecidableEq

/-- SQL `UPDATE schedules SET ... WHERE id = ?`: apply `f` to every task whose
id matches. -/
def updateTask (tid : String) (f : Task → Task) (l : List Task) : List Task :=
  l.map (fun t => if t.id = tid then f t else t)

/-- Append one `task_logs` row (`MatrixService.logTask`). -/
def appendLog (s : Store) (taskId : String) (level : LogLevel) (message : String) :
    Store :=
  { s with taskLogs := s.taskLogs ++ [⟨taskId, level, message⟩] }

/-- Embeds `MatrixService.sendAlert`: the Alert Reporter is invoked (recorded
in `alertCalls`); when `notify` throws — the oracle `alertErr` carries the
thrown message — the error is swallowed into a `warn` log for the task. -/
def sendAlert (alertErr : Option String) (call : AlertCall) (s : Store) : Store :=
  let s1 := { s with alertCalls := s.alertCalls ++ [call] }
  match alertErr with
  | none => s1
  | some msg =>
    { s1 with taskLogs := s1.taskLogs ++ [⟨call.taskId, .warn, "告警上报失败：" ++ msg⟩] }

/-- JavaScript `value || null` on an optional string: an absent or empty
string becomes `none`. -/
def orNull (o : Option String) : Option String :=
  if strTruthy o then o else none

/-- Resolve the optional bound content asset for a task, as the scheduler does
(`SELECT id, title, body FROM content_assets WHERE id = ?`, or `null` when the
task has no `contentAssetId`; a dangling id also yields `null`). -/
def resolveAsset (assets : List AssetRow) (task : Task) : Option Content :=
  match task.contentAssetId with
  | none => none
  | some assetId =>
    (assets.find? (fun r => r.id = assetId)).map
      (fun r => { title := some r.title, body := some r.body })

/-- The publish attempt of one due task inside the scheduler's `try` block:
resolve the adapter (an absent adapter throws a plain dispatch error), resolve
the bound content asset, and invoke `adapter.publish`. -/
def attemptPublish (reg : String → Option PublishFn) (assets : List AssetRow)
    (account : Account) (task : Task) : Except JsError PublishOk :=
  match reg account.platform with
  | none => .error (.plainError ("未找到平台适配器: " ++ account.platform))
  | some publishFn =>
    publishFn account task.contentType (resolveAsset assets task)

/-- Embeds the body of the per-task loop of `MatrixService.runDueTasks` for a
task already known to be due: missing account is terminal on first failure;
otherwise the task runs, and a thrown publish error either schedules a retry
(`retryCount + 1 <= 2`) or fails the task terminally with an alert. -/
def processTask (now : Nat) (reg : String → Option PublishFn)
    (alertErr : Option String) (s : Store) (task : Task) : Store :=
  match s.accounts.find? (fun a => a.id = task.accountId) with
  | none =>
    let errMsg := "账号不存在或已删除"
    let failTask := fun (t : Task) =>
      { t with status := Status.failed, completedAt := some now,
               errorMessage := some errMsg }
    let s1 := { s with schedules := updateTask task.id failTask s.schedules }
    let s2 := appendLog s1 task.id .error errMsg
    let s3 := appendLog s2 task.id .alert ("告警：发布失败（账号缺失），task=" ++ task.id)
    sendAlert alertErr
      { event := "publish_failed_missing_account", taskId := task.id,
        accountId := some task.accountId } s3
  | some account =>
    let runTask := fun (t : Task) =>
      { t with status := Status.running, startedAt := some now }
    let s1 := { s with schedules := updateTask task.id runTask s.schedules }
    match attemptPublish reg s1.contentAssets account task with
    | .ok result =>
      let okTask := fun (t : Task) =>
        { t with status := Status.success, completedAt := some now,
                 errorMessage := none, remoteId := orNull result.remoteId }
      let s2 := { s1 with schedules := updateTask task.id okTask s1.schedules }
      let s3 := appendLog s2 task.id .info
        ("任务执行成功：" ++ task.contentType ++ " -> " ++ account.platform)
      { s3 with metrics := s3.metrics ++
        [⟨task.id, account.platform, true, none, 0⟩] }
    | .error e =>
      let retryCount := task.retryCount + 1
      let errMsg := e.message
      if retryCount ≤ 2 then
        let retryTask := fun (t : Task) =>
          { t with status := Status.retrying, retryCount := retryCount,
                   errorMessage := some errMsg }
        let s2 := { s1 with schedules := updateTask task.id retryTask s1.schedules }
        let s3 := appendLog s2 task.id .warn
          ("发布失败，准备第 " ++ toString retryCount ++ " 次重试：" ++ errMsg)
        { s3 with metrics := s3.metrics ++
          [⟨task.id, account.platform, false, some (e.codeProp.getD "RETRY"), 0⟩] }
      else
        let failTask := fun (t : Task) =>
          { t with status := Status.failed, completedAt := some now,
                   retryCount := retryCount, errorMessage := some errMsg }
        let s2 := { s1 with schedules := updateTask task.id failTask s1.schedules }
        let s3 := appendLog s2 task.id .error ("发布失败（超过重试次数）：" ++ errMsg)
        let s4 := { s3 with metrics := s3.metrics ++
          [⟨task.id, account.platform, false, some (e.codeProp.getD "FAILED"), 0⟩] }
        let s5 := appendLog s4 task.id .alert
          ("告警：任务最终失败，task=" ++ task.id ++ "，platform=" ++ account.platform)
        sendAlert alertErr
          { event := "publish_failed_final", taskId := task.id,
            platform := some account.platform,
            errorCode := some (e.codeProp.getD "FAILED") } s5

/-- Keep the most recent `n` rows (the retention trim
`DELETE ... WHERE id NOT IN (SELECT id ... ORDER BY created_at DESC LIMIT n)`). -/
def lastN (n : Nat) (l : List α) : List α :=
  l.drop (l.length - n)

/-- Embeds `MatrixService.runDueTasks`: snapshot the pending tasks, skip the
ones not yet due or with an unparsable `publishAt`, process each due task in
order, then trim logs to 100 rows and metrics to 500 rows. -/
def runDueTasks (now : Nat) (reg : String → Option PublishFn)
    (alertErr : Option String) (s : Store) : Store :=
  let tasks := s.schedules.filter (fun t => statusPending t.status)
  let s1 := tasks.foldl (fun acc t =>
    match t.publishAt with
    | none => acc
    | some ts => if ts > now then acc else processTask now reg alertErr acc t) s
  { s1 with taskLogs := lastN 100 s1.taskLogs, metrics := lastN 500 s1.metrics }

/-- Embeds `MatrixService.cancelSchedule`: only a `scheduled` or `retrying`
task with the given id is cancelled (and `completed_at` stamped); any other
row is untouched. -/
def cancelSchedule (now : Nat) (tid : String) (s : Store) : Store :=
  { s with schedules := s.schedules.map (fun t =>
      if t.id = tid ∧ statusPending t.status then
        { t with status := .cancelled, completedAt := some now }
      else t) }

/-- Embeds `MatrixService.retrySchedule`: from any status, reset to
`scheduled` with `retry_count = 0` and cleared error/completion stamps. -/
def retrySchedule (tid : String) (s : Store) : Store :=
  { s with schedules := s.schedules.map (fun t =>
      if t.id = tid then
        { t with status := .scheduled, retryCount := 0,
                 errorMessage := none, completedAt := none }
      else t) }

/-- Embeds `MatrixService.executeScheduleNow`: like `retrySchedule`, and
additionally force `publish_at` to one second in the past. -/
def executeScheduleNow (now : Nat) (tid : String) (s : Store) : Store :=
  { s with schedules := s.schedules.map (fun t =>
      if t.id = tid then
        { t with status := .scheduled, publishAt := some (now - 1000),
                 retryCount := 0, errorMessage := none, completedAt := none }
      else t) }

/-- Embeds `MatrixService.schedulePublish`: insert a fresh `scheduled` row. -/
def schedulePublish (tid accountId contentType : String)
    (contentAssetId : Option String) (publishAt : Option Nat) (now : Nat)
    (s : Store) : Store :=
  { s with schedules := s.schedules ++
      [{ id := tid, accountId := accountId, contentType := contentType,
         contentAssetId := contentAssetId, publishAt := publishAt,
         status := .scheduled, createdAt := now }] }

/-- Embeds `hasValue` of `alert-reporter.js`: a configured channel URL is a
string whose trimmed form is non-empty, i.e. one containing at least one
non-whitespace character. -/
def hasValue (input : String) : Bool :=
  input.data.any (fun ch => !ch.isWhitespace)

/-- The Alert Reporter with its three optional channel URLs. -/
structure AlertReporter where
  webhookUrl : String := ""
  wecomWebhookUrl : String := ""
  feishuWebhookUrl : String := ""
  deriving Repr, DecidableEq

/-- Embeds `AlertReporter.isEnabled`. -/
def AlertReporter.isEnabled (r : AlertReporter) : Bool :=
  hasValue r.webhookUrl || hasValue r.wecomWebhookUrl || hasValue r.feishuWebhookUrl

/-- The number of configured channels. -/
def AlertReporter.configuredCount (r : AlertReporter) : Nat :=
  (if hasValue r.webhookUrl then 1 else 0) +
  (if hasValue r.wecomWebhookUrl then 1 else 0) +
  (if hasValue r.feishuWebhookUrl then 1 else 0)

/-- The payload of a `notify` call; `details` stands for the serialized
details object. -/
structure AlertPayload where
  event : String
  details : String
  createdAt : Nat
  deriving Repr, DecidableEq

/-- The body of one webhook POST: the raw payload for the generic webhook, or
a channel-specific text envelope for the chat webhooks. -/
inductive PostBody where
  | raw (payload : AlertPayload)
  | wecomText (content : String)
  | feishuText (text : String)
  deriving Repr, DecidableEq

/-- One HTTP POST performed by `notify`. -/
structure PostCall where
  url : String
  body : PostBody
  deriving Repr, DecidableEq

/-- The human-readable text summary sent to the chat webhooks. -/
def alertText (p : AlertPayload) : String :=
  "[MatrixAlert] " ++ p.event ++ "\n" ++ p.details

/-- Result of a completed `notify` call. -/
inductive NotifyRes where
  | skippedRes
  | okRes (channels : Nat)
  deriving Repr, DecidableEq

/-- Embeds `AlertReporter.notify`.  The first component is the list of HTTP
POSTs performed; the second is the returned value, where `allOk` records
whether every POST succeeded (a failed POST makes the whole `Promise.all`
reject, so `notify` throws). -/
def notify (r : AlertReporter) (p : AlertPayload) (allOk : Bool) :
    List PostCall × Except JsError NotifyRes :=
  if r.isEnabled then
    let jobs :=
      (if hasValue r.webhookUrl then [PostCall.mk r.webhookUrl (.raw p)] else []) ++
      (if hasValue r.wecomWebhookUrl then
        [PostCall.mk r.wecomWebhookUrl (.wecomText (alertText p))] else []) ++
      (if hasValue r.feishuWebhookUrl then
        [PostCall.mk r.feishuWebhookUrl (.feishuText (alertText p))] else [])
    (jobs, if allOk then .ok (.okRes jobs.length) else .error (.plainError "alert webhook failed"))
  else
    ([], .ok .skippedRes)

/-!  ## Helper lemmas about the scheduler -/

/-- The `warn` log appended by `sendAlert` when `notify` throws. -/
def warnLogOpt (aerr : Option String) (tid : String) : List LogEntry :=
  match aerr with
  | none => []
  | some m => [⟨tid, .warn, "告警上报失败：" ++ m⟩]

theorem runDue_single_retry (now : Nat) (reg : String → Option PublishFn)
    (aerr : Option String) (s : Store) (t : Task) (acct : Account)
    (e : JsError) (ts : Nat)
    (hsched : s.schedules = [t])
    (hpend : statusPending t.status = true)
    (hpub : t.publishAt = some ts) (hdue : ts ≤ now)
    (hacct : s.accounts.find? (fun a => a.id = t.accountId) = some acct)
    (hfail : attemptPublish reg s.contentAssets acct t = .error e)
    (hrc : t.retryCount + 1 ≤ 2) :
    runDueTasks now reg aerr s =
      { s with
        schedules := [{ t with status := .retrying,
                               retryCount := t.retryCount + 1,
                               errorMessage := some e.message,
                               startedAt := some now }],
        taskLogs := lastN 100 (s.taskLogs ++
          [⟨t.id, .warn, "发布失败，准备第 " ++ toString (t.retryCount + 1) ++ " 次重试：" ++ e.message⟩]),
        metrics := lastN 500 (s.metrics ++
          [⟨t.id, acct.platform, false, some (e.codeProp.getD "RETRY"), 0⟩]) } := by
  unfold runDueTasks
  rw [hsched]
  simp only [List.filter, hpend, List.foldl, hpub]
  rw [if_neg (by omega)]
  unfold processTask
  rw [hacct]
  simp only [hfail, updateTask, List.map, if_pos rfl, appendLog]
  rw [if_pos hrc]
  simp [hsched, hpub]

theorem runDue_single_final (now : Nat) (reg : String → Option PublishFn)
    (aerr : Option String) (s : Store) (t : Task) (acct : Account)
    (e : JsError) (ts : Nat)
    (hsched : s.schedules = [t])
    (hpend : statusPending t.status = true)
    (hpub : t.publishAt = some ts) (hdue : ts ≤ now)
    (hacct : s.accounts.find? (fun a => a.id = t.accountId) = some acct)
    (hfail : attemptPublish reg s.contentAssets acct t = .error e)
    (hrc : 2 ≤ t.retryCount) :
    runDueTasks now reg aerr s =
      { s with
        schedules := [{ t with status := .failed,
                               retryCount := t.retryCount + 1,
                               errorMessage := some e.message,
                               startedAt := some now,
                               completedAt := some now }],
        taskLogs := lastN 100 (s.taskLogs ++
          ([⟨t.id, .error, "发布失败（超过重试次数）：" ++ e.message⟩,
            ⟨t.id, .alert, "告警：任务最终失败，task=" ++ t.id ++ "，platform=" ++ acct.platform⟩] ++
           warnLogOpt aerr t.id)),
        metrics := lastN 500 (s.metrics ++
          [⟨t.id, acct.platform, false, some (e.codeProp.getD "FAILED"), 0⟩]),
        alertCalls := s.alertCalls ++
          [⟨"publish_failed_final", t.id, some acct.platform,
            some (e.codeProp.getD "FAILED"), none⟩] } := by
  unfold runDueTasks
  rw [hsched]
  simp only [List.filter, hpend, List.foldl, hpub]
  rw [if_neg (by omega)]
  unfold processTask
  rw [hacct]
  simp only [hfail, updateTask, List.map, if_pos rfl, appendLog]
  rw [if_neg (by omega)]
  cases aerr <;> simp [hsched, hpub, sendAlert, warnLogOpt]

theorem runDue_single_missing (now : Nat) (reg : String → Option PublishFn)
    (aerr : Option String) (s : Store) (t : Task) (ts : Nat)
    (hsched : s.schedules = [t])
    (hpend : statusPending t.status = true)
    (hpub : t.publishAt = some ts) (hdue : ts ≤ now)
    (hacct : s.accounts.find? (fun a => a.id = t.accountId) = none) :
    runDueTasks now reg aerr s =
      { s with
        schedules := [{ t with status := .failed,
                               completedAt := some now,
                               errorMessage := some "账号不存在或已删除" }],
        taskLogs := lastN 100 (s.taskLogs ++
          ([⟨t.id, .error, "账号不存在或已删除"⟩,
            ⟨t.id, .alert, "告警：发布失败（账号缺失），task=" ++ t.id⟩] ++
           warnLogOpt aerr t.id)),
        metrics := lastN 500 s.metrics,
        alertCalls := s.alertCalls ++
          [⟨"publish_failed_missing_account", t.id, none, none, some t.accountId⟩] } := by
  unfold runDueTasks
  rw [hsched]
  simp only [List.filter, hpend, List.foldl, hpub]
  rw [if_neg (by omega)]
  unfold processTask
  rw [hacct]
  simp only [updateTask, List.map, if_pos rfl, appendLog]
  cases aerr <;> simp [hsched, hpub, sendAlert, warnLogOpt]

theorem mem_lastN_append {α : Type} (n : Nat) (l r : List α) (x : α)
    (h : r.length + 1 ≤ n) : x ∈ lastN n (l ++ x :: r) := by
  unfold lastN
  have hlen : (l ++ x :: r).length = l.length + (r.length + 1) := by
    simp [List.length_append]
  rw [hlen]
  have hk : l.length + (r.length + 1) - n ≤ l.length := by omega
  rw [List.drop_append_of_le_length hk]
  exact List.mem_append_right _ (List.mem_cons_self x r)

theorem warnLogOpt_length_le (aerr : Option String) (tid : String) :
    (warnLogOpt aerr tid).length ≤ 1 := by
  cases aerr <;> simp [warnLogOpt]

set_option maxRecDepth 8000 in
/-- C3: a due task whose `accountId` resolves to no stored account is failed
terminally in one poll cycle: `completedAt` is stamped, `retryCount` is left
at its prior value, an `error` log and an `alert` log are written for the
task, the Alert Reporter is invoked with event
`publish_failed_missing_account`, and no metric is recorded (the result does
not depend on the adapter registry, so no publish attempt is made). -/
theorem missing_account_nonretryable (now : Nat)
    (reg : String → Option PublishFn) (aerr : Option String) (s : Store)
    (t : Task) (ts : Nat) (out : Store)
    (hsched : s.schedules = [t])
    (hpend : statusPending t.status = true)
    (hpub : t.publishAt = some ts) (hdue : ts ≤ now)
    (hacct : s.accounts.find? (fun a => a.id = t.accountId) = none)
    (hout : out = runDueTasks now reg aerr s) :
    out.schedules = [{ t with status := .failed, completedAt := some now,
                              errorMessage := some "账号不存在或已删除" }] ∧
    (⟨t.id, .error, "账号不存在或已删除"⟩ : LogEntry) ∈ out.taskLogs ∧
    (⟨t.id, .alert, "告警：发布失败（账号缺失），task=" ++ t.id⟩ : LogEntry) ∈ out.taskLogs ∧
    out.alertCalls = s.alertCalls ++
      [⟨"publish_failed_missing_account", t.id, none, none, some t.accountId⟩] ∧
    out.metrics = lastN 500 s.metrics := by
  subst hout
  rw [runDue_single_missing now reg aerr s t ts hsched hpend hpub hdue hacct]
  refine ⟨rfl, ?_, ?_, rfl, rfl⟩

  · show _ ∈ lastN 100 (s.taskLogs ++ _)
    have hw := warnLogOpt_length_le aerr t.id
    have hre : s.taskLogs ++
        ([⟨t.id, .error, "账号不存在或已删除"⟩,
          ⟨t.id, .alert, "告警：发布失败（账号缺失），task=" ++ t.id⟩] ++
         warnLogOpt aerr t.id) =
        s.taskLogs ++ (⟨t.id, .error, "账号不存在或已删除"⟩ : LogEntry) ::
          ((⟨t.id, .alert, "告警：发布失败（账号缺失），task=" ++ t.id⟩ : LogEntry) ::
           warnLogOpt aerr t.id) := by simp
    rw [hre]
    exact mem_lastN_append 100 s.taskLogs _ _ (by simp; omega)
  · show _ ∈ lastN 100 (s.taskLogs ++ _)
    have hw := warnLogOpt_length_le aerr t.id
    have hre : s.taskLogs ++
        ([⟨t.id, .error, "账号不存在或已删除"⟩,
          ⟨t.id, .alert, "告警：发布失败（账号缺失），task=" ++ t.id⟩] ++
         warnLogOpt aerr t.id) =
        (s.taskLogs ++ [⟨t.id, .error, "账号不存在或已删除"⟩]) ++
          (⟨t.id, .alert, "告警：发布失败（账号缺失），task=" ++ t.id⟩ : LogEntry) ::
           warnLogOpt aerr t.id := by simp
    rw [hre]
    exact mem_lastN_append 100 _ _ _ (by omega)

/-- A concrete account used by several witnesses. -/
def douyinAccount : Account :=
  { id := "a1", platform := "抖音", nickname := "nick" }

/-- A concrete task with a dangling `accountId`. -/
def ghostTask : Task :=
  { id := "w3", accountId := "ghost", contentType := "图文", publishAt := some 50 }

/-- A concrete store holding only `ghostTask`. -/
def ghostStore : Store :=
  { accounts := [douyinAccount], contentAssets := [], schedules := [ghostTask],
    taskLogs := [], metrics := [], alertCalls := [] }

/-- Witness for `missing_account_nonretryable` at a concrete store. -/
theorem missing_account_nonretryable_witness :
    (runDueTasks 100 (mockRegistry 100) none ghostStore).schedules =
      [{ ghostTask with status := .failed, completedAt := some 100,
                        errorMessage := some "账号不存在或已删除" }] := by
  have h := missing_account_nonretryable 100 (mockRegistry 100) none
    ghostStore ghostTask 50 _ rfl rfl rfl (by omega) (by decide) rfl
  exact h.1

theorem attemptPublish_congr (reg : String → Option PublishFn)
    (assets : List AssetRow) (acct : Account) (u v : Task)
    (hct : u.contentType = v.contentType)
    (hca : u.contentAssetId = v.contentAssetId) :
    attemptPublish reg assets acct u = attemptPublish reg assets acct v := by
  unfold attemptPublish resolveAsset
  rw [hct, hca]

/-- The task record produced by one failing-but-retryable poll cycle. -/
def retryStep (t : Task) (now : Nat) (msg : String) : Task :=
  { t with status := .retrying, retryCount := t.retryCount + 1,
           errorMessage := some msg, startedAt := some now }

set_option maxRecDepth 8000 in
theorem runDue_single_retry_parts (now : Nat) (reg : String → Option PublishFn)
    (aerr : Option String) (s : Store) (t : Task) (acct : Account)
    (e : JsError) (ts : Nat)
    (hsched : s.schedules = [t])
    (hpend : statusPending t.status = true)
    (hpub : t.publishAt = some ts) (hdue : ts ≤ now)
    (hacct : s.accounts.find? (fun a => a.id = t.accountId) = some acct)
    (hfail : attemptPublish reg s.contentAssets acct t = .error e)
    (hrc : t.retryCount + 1 ≤ 2) :
    (runDueTasks now reg aerr s).accounts = s.accounts ∧
    (runDueTasks now reg aerr s).contentAssets = s.contentAssets ∧
    (runDueTasks now reg aerr s).schedules = [retryStep t now e.message] ∧
    (runDueTasks now reg aerr s).metrics = lastN 500 (s.metrics ++
      [⟨t.id, acct.platform, false, some (e.codeProp.getD "RETRY"), 0⟩]) ∧
    (runDueTasks now reg aerr s).alertCalls = s.alertCalls := by
  rw [runDue_single_retry now reg aerr s t acct e ts hsched hpend hpub hdue
        hacct hfail hrc]
  exact ⟨rfl, rfl, rfl, rfl, rfl⟩

/-- The task record produced by the terminally-failing poll cycle. -/
def failStep (t : Task) (now : Nat) (msg : String) : Task :=
  { t with status := .failed, retryCount := t.retryCount + 1,
           errorMessage := some msg, startedAt := some now,
           completedAt := some now }

set_option maxRecDepth 8000 in
theorem runDue_single_final_parts (now : Nat) (reg : String → Option PublishFn)
    (aerr : Option String) (s : Store) (t : Task) (acct : Account)
    (e : JsError) (ts : Nat)
    (hsched : s.schedules = [t])
    (hpend : statusPending t.status = true)
    (hpub : t.publishAt = some ts) (hdue : ts ≤ now)
    (hacct : s.accounts.find? (fun a => a.id = t.accountId) = some acct)
    (hfail : attemptPublish reg s.contentAssets acct t = .error e)
    (hrc : 2 ≤ t.retryCount) :
    (runDueTasks now reg aerr s).accounts = s.accounts ∧
    (runDueTasks now reg aerr s).contentAssets = s.contentAssets ∧
    (runDueTasks now reg aerr s).schedules = [failStep t now e.message] ∧
    (runDueTasks now reg aerr s).taskLogs = lastN 100 (s.taskLogs ++
      ([⟨t.id, .error, "发布失败（超过重试次数）：" ++ e.message⟩,
        ⟨t.id, .alert, "告警：任务最终失败，task=" ++ t.id ++ "，platform=" ++ acct.platform⟩] ++
       warnLogOpt aerr t.id)) ∧
    (runDueTasks now reg aerr s).metrics = lastN 500 (s.metrics ++
      [⟨t.id, acct.platform, false, some (e.codeProp.getD "FAILED"), 0⟩]) ∧
    (runDueTasks now reg aerr s).alertCalls = s.alertCalls ++
      [⟨"publish_failed_final", t.id, some acct.platform,
        some (e.codeProp.getD "FAILED"), none⟩] := by
  rw [runDue_single_final now reg aerr s t acct e ts hsched hpend hpub hdue
        hacct hfail hrc]
  exact ⟨rfl, rfl, rfl, rfl, rfl, rfl⟩

set_option maxRecDepth 8000 in
set_option maxHeartbeats 2000000 in
/-- C1: a single publish task whose due-time attempt fails in three successive
poll cycles ends with `status = failed` and `retryCount = 3`, an `alert`-level
log and an Alert Reporter call with event `publish_failed_final`; after the
first and second failing attempts it is `retrying` with `retryCount` 1 and 2
respectively. -/
theorem retry_bound_three_attempts
    (now1 now2 now3 ts : Nat) (reg1 reg2 reg3 : String → Option PublishFn)
    (aerr1 aerr2 aerr3 : Option String) (s0 s1 s2 s3 : Store) (t : Task)
    (acct : Account) (e1 e2 e3 : JsError)
    (hsched : s0.schedules = [t]) (hstat : t.status = .scheduled)
    (hrc : t.retryCount = 0) (hpub : t.publishAt = some ts)
    (hdue : ts ≤ now1) (h12 : now1 ≤ now2) (h23 : now2 ≤ now3)
    (hacct : s0.accounts.find? (fun a => a.id = t.accountId) = some acct)
    (hf1 : attemptPublish reg1 s0.contentAssets acct t = .error e1)
    (hf2 : attemptPublish reg2 s0.contentAssets acct t = .error e2)
    (hf3 : attemptPublish reg3 s0.contentAssets acct t = .error e3)
    (hs1 : s1 = runDueTasks now1 reg1 aerr1 s0)
    (hs2 : s2 = runDueTasks now2 reg2 aerr2 s1)
    (hs3 : s3 = runDueTasks now3 reg3 aerr3 s2) :
    s1.schedules.map (fun u => (u.status, u.retryCount)) = [(.retrying, 1)] ∧
    s2.schedules.map (fun u => (u.status, u.retryCount)) = [(.retrying, 2)] ∧
    s3.schedules.map (fun u => (u.status, u.retryCount)) = [(.failed, 3)] ∧
    (∃ l ∈ s3.taskLogs, l.taskId = t.id ∧ l.level = .alert) ∧
    (∃ c ∈ s3.alertCalls, c.event = "publish_failed_final" ∧ c.taskId = t.id) := by
  have hpend1 : statusPending t.status = true := by rw [hstat]; rfl
  have hrc1 : t.retryCount + 1 ≤ 2 := by omega
  obtain ⟨hA1, hC1, hS1, hM1, hAl1⟩ := runDue_single_retry_parts now1 reg1 aerr1
    s0 t acct e1 ts hsched hpend1 hpub hdue hacct hf1 hrc1
  rw [← hs1] at hA1 hC1 hS1
  have hacct2 : s1.accounts.find? (fun a => a.id = t.accountId) = some acct := by
    rw [hA1]; exact hacct
  have hf2a : attemptPublish reg2 s1.contentAssets acct
      (retryStep t now1 e1.message) = .error e2 := by
    rw [hC1]
    exact (attemptPublish_congr reg2 s0.contentAssets acct _ t rfl rfl).trans hf2
  have hrc2 : (retryStep t now1 e1.message).retryCount + 1 ≤ 2 := by
    show t.retryCount + 1 + 1 ≤ 2
    omega
  obtain ⟨hA2, hC2, hS2, hM2, hAl2⟩ := runDue_single_retry_parts now2 reg2 aerr2
    s1 (retryStep t now1 e1.message) acct e2 ts hS1 rfl hpub
    (le_trans hdue h12) hacct2 hf2a hrc2
  rw [← hs2] at hA2 hC2 hS2
  have hacct3 : s2.accounts.find? (fun a => a.id = t.accountId) = some acct := by
    rw [hA2, hA1]; exact hacct
  have hf3a : attemptPublish reg3 s2.contentAssets acct
      (retryStep (retryStep t now1 e1.message) now2 e2.message) = .error e3 := by
    rw [hC2, hC1]
    exact (attemptPublish_congr reg3 s0.contentAssets acct _ t rfl rfl).trans hf3
  have hrc3 : 2 ≤ (retryStep (retryStep t now1 e1.message) now2 e2.message).retryCount := by
    show 2 ≤ t.retryCount + 1 + 1
    omega
  obtain ⟨hA3, hC3, hS3, hL3, hM3, hAl3⟩ := runDue_single_final_parts now3 reg3
    aerr3 s2 (retryStep (retryStep t now1 e1.message) now2 e2.message) acct e3 ts
    hS2 rfl hpub (le_trans (le_trans hdue h12) h23) hacct3 hf3a hrc3
  rw [← hs3] at hS3 hL3 hAl3
  refine ⟨?_, ?_, ?_, ?_, ?_⟩
  · rw [hS1]; simp [retryStep, hrc]
  · rw [hS2]; simp [retryStep, hrc]
  · rw [hS3]; simp [failStep, retryStep, hrc]
  · rw [hL3]
    refine ⟨⟨t.id, .alert,
      "告警：任务最终失败，task=" ++ t.id ++ "，platform=" ++ acct.platform⟩, ?_, rfl, rfl⟩
    have hre : s2.taskLogs ++
        ([⟨(retryStep (retryStep t now1 e1.message) now2 e2.message).id, .error,
           "发布失败（超过重试次数）：" ++ e3.message⟩,
          ⟨(retryStep (retryStep t now1 e1.message) now2 e2.message).id, .alert,
           "告警：任务最终失败，task=" ++
             (retryStep (retryStep t now1 e1.message) now2 e2.message).id ++
             "，platform=" ++ acct.platform⟩] ++
         warnLogOpt aerr3 (retryStep (retryStep t now1 e1.message) now2 e2.message).id) =
        (s2.taskLogs ++ [⟨t.id, .error, "发布失败（超过重试次数）：" ++ e3.message⟩]) ++
          (⟨t.id, .alert,
            "告警：任务最终失败，task=" ++ t.id ++ "，platform=" ++ acct.platform⟩ : LogEntry) ::
           warnLogOpt aerr3 t.id := by simp [retryStep]
    rw [hre]
    have hw := warnLogOpt_length_le aerr3 t.id
    exact mem_lastN_append 100 _ _ _ (by omega)
  · rw [hAl3]
    refine ⟨⟨"publish_failed_final", t.id, some acct.platform,
      some (e3.codeProp.getD "FAILED"), none⟩, ?_, rfl, rfl⟩
    have hid : (retryStep (retryStep t now1 e1.message) now2 e2.message).id = t.id := rfl
    rw [hid]
    exact List.mem_append_right _ (List.mem_singleton.mpr rfl)

/-- A concrete task bound to no content asset, due at time 50. -/
def nullAssetTask : Task :=
  { id := "w1", accountId := "a1", contentType := "图文", publishAt := some 50 }

/-- A concrete store holding only `nullAssetTask` for `douyinAccount`. -/
def nullAssetStore : Store :=
  { accounts := [douyinAccount], contentAssets := [], schedules := [nullAssetTask],
    taskLogs := [], metrics := [], alertCalls := [] }

/-- Witness for `retry_bound_three_attempts`: three mock poll cycles on a
task whose publish attempt always throws. -/
theorem retry_bound_three_attempts_witness :
    (runDueTasks 300 (mockRegistry 300) none
      (runDueTasks 200 (mockRegistry 200) none
        (runDueTasks 100 (mockRegistry 100) none nullAssetStore))).schedules.map
      (fun u => (u.status, u.retryCount)) = [(.failed, 3)] := by
  have h := retry_bound_three_attempts 100 200 300 50
    (mockRegistry 100) (mockRegistry 200) (mockRegistry 300) none none none
    nullAssetStore _ _ _ nullAssetTask douyinAccount
    (.typeError "Cannot read properties of null (reading title)")
    (.typeError "Cannot read properties of null (reading title)")
    (.typeError "Cannot read properties of null (reading title)")
    rfl rfl rfl rfl (by omega) (by omega) (by omega) rfl
    rfl rfl rfl rfl rfl rfl
  exact h.2.2.1

/-- A concrete account on a platform with no registered adapter. -/
def weiboAccount : Account :=
  { id := "a2", platform := "微博", nickname := "n" }

/-- A concrete due task owned by `weiboAccount`. -/
def weiboTask : Task :=
  { id := "t3", accountId := "a2", contentType := "图文", publishAt := some 50 }

/-- A concrete store holding only `weiboTask`. -/
def weiboStore : Store :=
  { accounts := [weiboAccount], contentAssets := [], schedules := [weiboTask],
    taskLogs := [], metrics := [], alertCalls := [] }

/-- C2 counterexample: with the mock registry (which has no adapter for the
platform `微博`), the first poll cycle moves the task INTO the `retrying`
state with `retryCount = 1` — the absent adapter does consume the retry
budget, contradicting the claimed non-retryable dispatch failure. -/
theorem absent_adapter_claim_counterexample :
    (runDueTasks 100 (mockRegistry 100) none weiboStore).schedules.map
      (fun u => (u.status, u.retryCount)) = [(.retrying, 1)] ∧
    (mockRegistry 100 "微博").isNone = true := by
  exact ⟨rfl, rfl⟩

/-- C2 amended: when the Adapter Registry returns no adapter for the task's
account platform, the thrown dispatch error goes down the ordinary retry
path: on the first poll cycle the task enters `retrying` with
`retryCount = 1` (consuming the retry budget), with the dispatch message
stored and a failure metric with code `RETRY` recorded. -/
theorem absent_adapter_enters_retry (now ts : Nat)
    (reg : String → Option PublishFn) (aerr : Option String) (s : Store)
    (t : Task) (acct : Account)
    (hsched : s.schedules = [t])
    (hpend : statusPending t.status = true)
    (hpub : t.publishAt = some ts) (hdue : ts ≤ now)
    (hacct : s.accounts.find? (fun a => a.id = t.accountId) = some acct)
    (hreg : reg acct.platform = none)
    (hrc : t.retryCount = 0) :
    (runDueTasks now reg aerr s).schedules =
      [retryStep t now ("未找到平台适配器: " ++ acct.platform)] ∧
    (runDueTasks now reg aerr s).schedules.map (fun u => (u.status, u.retryCount)) =
      [(.retrying, 1)] ∧
    (runDueTasks now reg aerr s).metrics = lastN 500 (s.metrics ++
      [⟨t.id, acct.platform, false, some "RETRY", 0⟩]) := by
  have hfail : attemptPublish reg s.contentAssets acct t =
      .error (.plainError ("未找到平台适配器: " ++ acct.platform)) := by
    unfold attemptPublish
    rw [hreg]
  obtain ⟨hA, hC, hS, hM, hAl⟩ := runDue_single_retry_parts now reg aerr s t
    acct _ ts hsched hpend hpub hdue hacct hfail (by omega)
  refine ⟨hS, ?_, hM⟩
  rw [hS]
  simp [retryStep, hrc]

/-- Witness for `absent_adapter_enters_retry` at the concrete `weiboStore`. -/
theorem absent_adapter_enters_retry_witness :
    (runDueTasks 100 (mockRegistry 100) none weiboStore).schedules =
      [retryStep weiboTask 100 ("未找到平台适配器: " ++ weiboAccount.platform)] := by
  have h := absent_adapter_enters_retry 100 50 (mockRegistry 100) none
    weiboStore weiboTask weiboAccount rfl rfl rfl (by omega) (by decide) rfl rfl
  exact h.1

/-- A concrete content asset containing the configured sensitive word
`违禁词`. -/
def sensitiveAsset : Content :=
  { title := some "有违禁词", body := some "正文" }

/-- C4 counterexample: the 小红书 adapter in mock mode returns a success
result on a content asset that the compliance checker itself rejects with
`CONTENT_VIOLATION` — so not every adapter runs the compliance check before
publishing. -/
theorem compliance_bypass_counterexample :
    xiaohongshuPublish .mock {} 7 weiboAccount "图文" (some sensitiveAsset) =
      .ok ⟨some "xhs-7"⟩ ∧
    toutiaoPublish .mock {} 7 weiboAccount "图文" (some sensitiveAsset) =
      .ok ⟨some "tt-7"⟩ ∧
    validateContentCompliance (some sensitiveAsset) "小红书" none =
      .error (.apiError "内容包含敏感词: 违禁词" "CONTENT_VIOLATION") := by
  exact ⟨rfl, rfl, rfl⟩

/-- C4 amended: only the 抖音 adapter runs the content compliance check
inside `publish`.  For a content asset with a sensitive-word hit, the 抖音
adapter throws `CONTENT_VIOLATION` in mock mode and never returns a success
result in any mode, while the 小红书 and 头条 adapters in mock mode publish
it successfully (for content types other than their forced-failure
triggers). -/
theorem compliance_only_douyin (c : Content) (env : NetEnv) (now : Nat)
    (acct : Account) (ct : String)
    (hsens : (checkSensitiveWords (.jsStr (fullTextOf c)) none).hasSensitiveWords = true) :
    (∃ m, douyinPublish .mock env now acct ct (some c) =
      .error (.apiError m "CONTENT_VIOLATION")) ∧
    (∀ (mode : Mode) (env2 : NetEnv), ∃ e,
      douyinPublish mode env2 now acct ct (some c) = .error e) ∧
    (ct ≠ "模拟限流失败" →
      xiaohongshuPublish .mock env now acct ct (some c) =
        .ok ⟨some ("xhs-" ++ toString now)⟩) ∧
    (ct ≠ "模拟参数失败" →
      toutiaoPublish .mock env now acct ct (some c) =
        .ok ⟨some ("tt-" ++ toString now)⟩) := by
  have hcomp : validateContentCompliance (some c) "抖音" none =
      .error (.apiError
        ("内容包含敏感词: " ++ String.intercalate ", "
          (checkSensitiveWords (.jsStr (fullTextOf c)) none).foundWords)
        "CONTENT_VIOLATION") := by
    simp [validateContentCompliance, hsens]
  refine ⟨?_, ?_, ?_, ?_⟩
  · refine ⟨"内容包含敏感词: " ++ String.intercalate ", "
      (checkSensitiveWords (.jsStr (fullTextOf c)) none).foundWords, ?_⟩
    simp [douyinPublish, ensureAuthenticated, Bind.bind, Except.bind, hcomp]
  · intro mode env2
    cases mode with
    | mock =>
      refine ⟨.apiError ("内容包含敏感词: " ++ String.intercalate ", "
        (checkSensitiveWords (.jsStr (fullTextOf c)) none).foundWords)
        "CONTENT_VIOLATION", ?_⟩
      simp [douyinPublish, ensureAuthenticated, Bind.bind, Except.bind, hcomp]
    | real =>
      cases hauth : env2.authResult with
      | error e =>
        refine ⟨e, ?_⟩
        simp [douyinPublish, ensureAuthenticated, hauth, Bind.bind, Except.bind]
      | ok u =>
        refine ⟨.apiError ("内容包含敏感词: " ++ String.intercalate ", "
          (checkSensitiveWords (.jsStr (fullTextOf c)) none).foundWords)
          "CONTENT_VIOLATION", ?_⟩
        simp [douyinPublish, ensureAuthenticated, Bind.bind, Except.bind, hauth, hcomp]
  · intro hct
    simp [xiaohongshuPublish, hct]
  · intro hct
    simp [toutiaoPublish, hct]

/-- Witness for `compliance_only_douyin` at the concrete sensitive asset. -/
theorem compliance_only_douyin_witness :
    ∃ m, douyinPublish .mock {} 7 weiboAccount "图文" (some sensitiveAsset) =
      .error (.apiError m "CONTENT_VIOLATION") := by
  have h := compliance_only_douyin sensitiveAsset {} 7 weiboAccount "图文"
    (by decide)
  exact h.1

/-- The unified error-code taxonomy of `PlatformApiError`. -/
def taxonomyCodes : List String :=
  ["AUTH_FAILED", "RATE_LIMIT", "INVALID_PAYLOAD", "TIMEOUT",
   "CAPTCHA_REQUIRED", "CONTENT_VIOLATION"]

/-- C5: calling the 抖音 adapter with a `null` content asset (what the
scheduler passes for a task with no bound `contentAssetId`) throws a plain
`TypeError` from the compliance step, for every content type, even in mock
mode — so such a task never reaches `success` via this adapter; and the
scheduler's recorded failure metric then carries the non-taxonomy code
`RETRY` (while retries remain) or `FAILED` (on the terminal failure). -/
theorem null_asset_douyin_typeerror (now ts : Nat) (aerr : Option String)
    (s : Store) (t : Task) (acct : Account)
    (hsched : s.schedules = [t])
    (hpend : statusPending t.status = true)
    (hpub : t.publishAt = some ts) (hdue : ts ≤ now)
    (hacct : s.accounts.find? (fun a => a.id = t.accountId) = some acct)
    (hplat : acct.platform = "抖音")
    (hca : t.contentAssetId = none) :
    (∀ (env : NetEnv) (now2 : Nat) (acct2 : Account) (ct : String),
      douyinPublish .mock env now2 acct2 ct none =
        .error (.typeError "Cannot read properties of null (reading title)")) ∧
    (t.retryCount + 1 ≤ 2 →
      (runDueTasks now (mockRegistry now) aerr s).schedules =
        [retryStep t now "Cannot read properties of null (reading title)"] ∧
      (runDueTasks now (mockRegistry now) aerr s).metrics =
        lastN 500 (s.metrics ++ [⟨t.id, acct.platform, false, some "RETRY", 0⟩])) ∧
    (2 ≤ t.retryCount →
      (runDueTasks now (mockRegistry now) aerr s).schedules =
        [failStep t now "Cannot read properties of null (reading title)"] ∧
      (runDueTasks now (mockRegistry now) aerr s).metrics =
        lastN 500 (s.metrics ++ [⟨t.id, acct.platform, false, some "FAILED", 0⟩])) ∧
    "RETRY" ∉ taxonomyCodes ∧ "FAILED" ∉ taxonomyCodes := by
  have hmock : ∀ (env : NetEnv) (now2 : Nat) (acct2 : Account) (ct : String),
      douyinPublish .mock env now2 acct2 ct none =
        .error (.typeError "Cannot read properties of null (reading title)") := by
    intro env now2 acct2 ct
    simp [douyinPublish, ensureAuthenticated, validateContentCompliance,
      Bind.bind, Except.bind]
  have hfail : attemptPublish (mockRegistry now) s.contentAssets acct t =
      .error (.typeError "Cannot read properties of null (reading title)") := by
    unfold attemptPublish
    rw [hplat]
    show (douyinPublish .mock {} now acct t.contentType
      (resolveAsset s.contentAssets t)) = _
    unfold resolveAsset
    rw [hca]
    exact hmock {} now acct t.contentType
  refine ⟨hmock, ?_, ?_, by decide, by decide⟩
  · intro hrc
    obtain ⟨hA, hC, hS, hM, hAl⟩ := runDue_single_retry_parts now
      (mockRegistry now) aerr s t acct _ ts hsched hpend hpub hdue hacct
      hfail hrc
    exact ⟨hS, hM⟩
  · intro hrc
    obtain ⟨hA, hC, hS, hL, hM, hAl⟩ := runDue_single_final_parts now
      (mockRegistry now) aerr s t acct _ ts hsched hpend hpub hdue hacct
      hfail hrc
    exact ⟨hS, hM⟩

/-- Witness for `null_asset_douyin_typeerror` at the concrete
`nullAssetStore`. -/
theorem null_asset_douyin_typeerror_witness :
    (runDueTasks 100 (mockRegistry 100) none nullAssetStore).schedules =
      [retryStep nullAssetTask 100 "Cannot read properties of null (reading title)"] := by
  have h := null_asset_douyin_typeerror 100 50 none nullAssetStore
    nullAssetTask douyinAccount rfl rfl rfl (by omega) (by decide) rfl rfl
  exact (h.2.1 (by decide)).1

theorem fullTextOf_ne_empty (c : Content) : fullTextOf c ≠ "" := by
  unfold fullTextOf
  intro h
  have hlen := congrArg String.length h
  rw [String.length_append, String.length_append] at hlen
  have hone : (" " : String).length = 1 := rfl
  have hzero : ("" : String).length = 0 := rfl
  rw [hone, hzero] at hlen
  omega

/-- Claim-side predicate, taken from the spec wording of P5: the combined
title+body contains at least one word of the configured sensitive-word
list. -/
def specSensitiveHit (c : Content) (wordList : Option (List String)) : Prop :=
  ∃ w ∈ wordList.getD defaultSensitiveWords, strContains (fullTextOf c) w = true

/-- Claim-side predicate, taken from the spec wording of P5: the format check
fails for the platform (title over the maximum, body over the maximum, image
count outside the allowed range, or the platform absent from the limits
table). -/
def specFormatViolation (c : Content) (platform : String) : Prop :=
  match platformLimits platform with
  | none => True
  | some limits =>
    (strTruthy c.title = true ∧ (c.title.getD "").length > limits.titleMaxLength) ∨
    (strTruthy c.body = true ∧ (c.body.getD "").length > limits.bodyMaxLength) ∨
    (∃ imgs, c.images = some imgs ∧
      (imgs.length < limits.minImages ∨ imgs.length > limits.maxImages))

theorem hasSens_iff (c : Content) (wl : Option (List String)) :
    (checkSensitiveWords (.jsStr (fullTextOf c)) wl).hasSensitiveWords = true ↔
      specSensitiveHit c wl := by
  simp only [checkSensitiveWords]
  rw [if_neg (fullTextOf_ne_empty c)]
  simp [specSensitiveHit, List.length_pos_iff_exists_mem, List.mem_filter]

theorem format_nil_iff (c : Content) (p : String) :
    validateContentFormat c p = [] ↔ ¬ specFormatViolation c p := by
  unfold validateContentFormat specFormatViolation
  cases hL : platformLimits p with
  | none => simp
  | some limits =>
    cases himg : c.images with
    | none => split_ifs <;> simp_all <;> omega
    | some imgs => split_ifs <;> simp_all <;> omega

/-- The error code a compliance-check outcome carries (`none` when it returns
normally or throws a codeless error). -/
def complianceCode (r : Except JsError Unit) : Option String :=
  match r with
  | .ok _ => none
  | .error e => e.codeProp

/-- C6: `validateContentCompliance` throws `CONTENT_VIOLATION` exactly when
the combined title+body contains a configured sensitive word; otherwise it
throws `INVALID_PAYLOAD` exactly when the format check fails for the platform
(including unknown platforms); otherwise it returns normally.
`checkSensitiveWords` on null, empty, or non-string text reports no
matches. -/
theorem compliance_gate_characterization (c : Content) (p : String)
    (wl : Option (List String)) :
    (complianceCode (validateContentCompliance (some c) p wl) =
        some "CONTENT_VIOLATION" ↔ specSensitiveHit c wl) ∧
    (complianceCode (validateContentCompliance (some c) p wl) =
        some "INVALID_PAYLOAD" ↔
      (¬ specSensitiveHit c wl ∧ specFormatViolation c p)) ∧
    (validateContentCompliance (some c) p wl = .ok () ↔
      (¬ specSensitiveHit c wl ∧ ¬ specFormatViolation c p)) ∧
    (∀ wl2 : Option (List String),
      checkSensitiveWords .jsNull wl2 = ⟨false, []⟩ ∧
      checkSensitiveWords (.jsStr "") wl2 = ⟨false, []⟩ ∧
      checkSensitiveWords .jsNonString wl2 = ⟨false, []⟩) := by
  have hsi := hasSens_iff c wl
  have hfi := format_nil_iff c p
  by_cases hs : (checkSensitiveWords (.jsStr (fullTextOf c)) wl).hasSensitiveWords = true
  · have hcomp : validateContentCompliance (some c) p wl =
        .error (.apiError
          ("内容包含敏感词: " ++ String.intercalate ", "
            (checkSensitiveWords (.jsStr (fullTextOf c)) wl).foundWords)
          "CONTENT_VIOLATION") := by
      simp [validateContentCompliance, hs]
    rw [hcomp]
    have hyes : specSensitiveHit c wl := hsi.mp hs
    refine ⟨?_, ?_, ?_, ?_⟩
    · simpa [complianceCode, JsError.codeProp] using hyes
    · simp [complianceCode, JsError.codeProp, hyes]
    · simp [hyes]
    · intro wl2; exact ⟨rfl, rfl, rfl⟩
  · have hno : ¬ specSensitiveHit c wl := fun hy => hs (hsi.mpr hy)
    by_cases hf : validateContentFormat c p = []
    · have hok : validateContentCompliance (some c) p wl = .ok () := by
        simp [validateContentCompliance, hs, hf]
      rw [hok]
      refine ⟨?_, ?_, ?_, ?_⟩
      · simp [complianceCode, hno]
      · simp [complianceCode, hno, hfi.mp hf]
      · simp [hno, hfi.mp hf]
      · intro wl2; exact ⟨rfl, rfl, rfl⟩
    · have hbad : validateContentCompliance (some c) p wl =
          .error (.apiError "内容格式不符合要求" "INVALID_PAYLOAD") := by
        simp [validateContentCompliance, hs, hf, List.length_eq_zero]
      rw [hbad]
      have hviol : specFormatViolation c p := by
        by_contra hv
        exact hf (hfi.mpr hv)
      refine ⟨?_, ?_, ?_, ?_⟩
      · simp [complianceCode, JsError.codeProp, hno]
      · simp [complianceCode, JsError.codeProp, hno, hviol]
      · simp [hno, hviol]
      · intro wl2; exact ⟨rfl, rfl, rfl⟩

/-- C9: with zero configured channels `notify` returns the skipped result and
performs no HTTP call; with `N ≥ 1` configured channels it performs exactly
one POST per configured channel — the raw payload to the generic webhook and
a channel-specific text envelope to each chat webhook — and returns
`{ok:true, channels:N}` once all complete. -/
theorem alert_degrade (r : AlertReporter) (p : AlertPayload) (allOk : Bool) :
    (r.configuredCount = 0 →
      notify r p allOk = ([], .ok .skippedRes)) ∧
    (1 ≤ r.configuredCount →
      (notify r p allOk).1.length = r.configuredCount ∧
      (hasValue r.webhookUrl = true →
        (⟨r.webhookUrl, .raw p⟩ : PostCall) ∈ (notify r p allOk).1) ∧
      (hasValue r.wecomWebhookUrl = true →
        (⟨r.wecomWebhookUrl, .wecomText (alertText p)⟩ : PostCall) ∈ (notify r p allOk).1) ∧
      (hasValue r.feishuWebhookUrl = true →
        (⟨r.feishuWebhookUrl, .feishuText (alertText p)⟩ : PostCall) ∈ (notify r p allOk).1) ∧
      (allOk = true →
        (notify r p allOk).2 = .ok (.okRes r.configuredCount))) := by
  cases h1 : hasValue r.webhookUrl <;>
    cases h2 : hasValue r.wecomWebhookUrl <;>
      cases h3 : hasValue r.feishuWebhookUrl <;>
        simp_all [notify, AlertReporter.isEnabled, AlertReporter.configuredCount]

/-- A concrete Alert Reporter with two configured channels. -/
def twoChannelReporter : AlertReporter :=
  { webhookUrl := "http://x", wecomWebhookUrl := "", feishuWebhookUrl := "http://f" }

/-- Witness for `alert_degrade` at a reporter with two configured channels. -/
theorem alert_degrade_witness :
    (notify twoChannelReporter ⟨"e", "d", 0⟩ true).1.length = 2 ∧
    (notify twoChannelReporter ⟨"e", "d", 0⟩ true).2 = .ok (.okRes 2) := by
  have h := (alert_degrade twoChannelReporter ⟨"e", "d", 0⟩ true).2 (by decide)
  exact ⟨h.1.trans (by rfl), (h.2.2.2.2 rfl).trans (by rfl)⟩

/-- Agreement of two stores on everything except the task logs. -/
def agreeNoLogs (s1 s2 : Store) : Prop :=
  s1.accounts = s2.accounts ∧ s1.contentAssets = s2.contentAssets ∧
  s1.schedules = s2.schedules ∧ s1.metrics = s2.metrics ∧
  s1.alertCalls = s2.alertCalls

theorem sendAlert_schedules (a : Option String) (call : AlertCall) (s : Store) :
    (sendAlert a call s).schedules = s.schedules := by
  cases a <;> rfl

theorem processTask_agree (now : Nat) (reg : String → Option PublishFn)
    (a1 a2 : Option String) (t : Task) (s1 s2 : Store)
    (h : agreeNoLogs s1 s2) :
    agreeNoLogs (processTask now reg a1 s1 t) (processTask now reg a2 s2 t) := by
  obtain ⟨A1, C1, S1, L1, M1, Al1⟩ := s1
  obtain ⟨A2, C2, S2, L2, M2, Al2⟩ := s2
  obtain ⟨hA, hC, hS, hM, hAl⟩ := h
  simp only at hA hC hS hM hAl
  subst hA hC hS hM hAl
  unfold processTask
  dsimp only
  split
  · cases a1 <;> cases a2 <;>
      simp [sendAlert, appendLog, agreeNoLogs]
  · split
    · simp [appendLog, agreeNoLogs]
    · by_cases hrc : t.retryCount + 1 ≤ 2
      · simp [hrc, appendLog, agreeNoLogs]
      · cases a1 <;> cases a2 <;>
          simp [hrc, sendAlert, appendLog, agreeNoLogs]

theorem foldDue_agree (now : Nat) (reg : String → Option PublishFn)
    (a1 a2 : Option String) (ts : List Task) (s1 s2 : Store)
    (h : agreeNoLogs s1 s2) :
    agreeNoLogs
      (ts.foldl (fun acc t =>
        match t.publishAt with
        | none => acc
        | some ts2 => if ts2 > now then acc else processTask now reg a1 acc t) s1)
      (ts.foldl (fun acc t =>
        match t.publishAt with
        | none => acc
        | some ts2 => if ts2 > now then acc else processTask now reg a2 acc t) s2) := by
  induction ts generalizing s1 s2 with
  | nil => exact h
  | cons t rest ih =>
    simp only [List.foldl]
    apply ih
    cases hp : t.publishAt with
    | none => exact h
    | some ts2 =>
      by_cases hgt : ts2 > now
      · simp [hgt, h]
      · simp only [if_neg hgt]
        exact processTask_agree now reg a1 a2 t s1 s2 h

/-- C10: an Alert Reporter failure is swallowed inside `sendAlert` — the only
difference it makes is one extra `warn` log for the task — and a poll cycle
run with a failing alert transport leaves exactly the same schedules, metrics
and Alert Reporter invocations as one whose alerts succeed. -/
theorem alert_failure_swallowed :
    (∀ (msg : String) (call : AlertCall) (s : Store),
      sendAlert (some msg) call s =
        { sendAlert none call s with
            taskLogs := (sendAlert none call s).taskLogs ++
              [⟨call.taskId, .warn, "告警上报失败：" ++ msg⟩] }) ∧
    (∀ (now : Nat) (reg : String → Option PublishFn) (s : Store)
       (aerr aerr2 : Option String),
      (runDueTasks now reg aerr s).schedules =
        (runDueTasks now reg aerr2 s).schedules ∧
      (runDueTasks now reg aerr s).metrics =
        (runDueTasks now reg aerr2 s).metrics ∧
      (runDueTasks now reg aerr s).alertCalls =
        (runDueTasks now reg aerr2 s).alertCalls) := by
  constructor
  · intro msg call s
    rfl
  · intro now reg s aerr aerr2
    have hagree := foldDue_agree now reg aerr aerr2
      (s.schedules.filter (fun t => statusPending t.status)) s s
      ⟨rfl, rfl, rfl, rfl, rfl⟩
    obtain ⟨hA, hC, hS, hM, hAl⟩ := hagree
    unfold runDueTasks
    dsimp only
    exact ⟨hS, by rw [hM], hAl⟩

/-- The due predicate of the data model: a task is due iff its status is
`scheduled` or `retrying` and its publish time has passed (an unparsable
publish time is never due), exactly the test `runDueTasks` applies. -/
def taskDue (now : Nat) (t : Task) : Bool :=
  statusPending t.status &&
    match t.publishAt with
    | none => false
    | some ts => decide (ts ≤ now)

/-- The task record produced by `retrySchedule`. -/
def retryReset (t : Task) : Task :=
  { t with status := .scheduled, retryCount := 0,
           errorMessage := none, completedAt := none }

/-- The task record produced by `executeScheduleNow`. -/
def executeNowReset (now : Nat) (t : Task) : Task :=
  { t with status := .scheduled, publishAt := some (now - 1000),
           retryCount := 0, errorMessage := none, completedAt := none }

/-- The task record produced by `cancelSchedule` on a cancellable task. -/
def cancelStamp (now : Nat) (t : Task) : Task :=
  { t with status := .cancelled, completedAt := some now }

/-- C8: `cancel` moves a task to `cancelled` (stamping `completedAt`) only
from `scheduled` or `retrying` and is a field-preserving no-op from any other
status; `retry`, from any status, resets to `scheduled` with `retryCount = 0`
and cleared `errorMessage`/`completedAt`; `executeNow` does the same and
additionally forces `publishAt` one second into the past, so the task is due
at every subsequent poll instant. -/
theorem manual_operations (now : Nat) (tid : String) (s : Store) (t : Task)
    (hmem : t ∈ s.schedules) (hnow : 1000 ≤ now) :
    (t.id = tid → statusPending t.status = true →
      cancelStamp now t ∈ (cancelSchedule now tid s).schedules) ∧
    (¬(t.id = tid ∧ statusPending t.status = true) →
      t ∈ (cancelSchedule now tid s).schedules) ∧
    (t.id = tid → retryReset t ∈ (retrySchedule tid s).schedules) ∧
    (t.id ≠ tid → t ∈ (retrySchedule tid s).schedules) ∧
    (t.id = tid →
      executeNowReset now t ∈ (executeScheduleNow now tid s).schedules ∧
      now - 1000 < now ∧
      (∀ now2, now ≤ now2 → taskDue now2 (executeNowReset now t) = true)) ∧
    (t.id ≠ tid → t ∈ (executeScheduleNow now tid s).schedules) := by
  refine ⟨?_, ?_, ?_, ?_, ?_, ?_⟩
  · intro hid hpend
    have h := List.mem_map_of_mem
      (fun u : Task => if u.id = tid ∧ statusPending u.status = true then
        cancelStamp now u else u) hmem
    dsimp only at h
    rw [if_pos ⟨hid, hpend⟩] at h
    simpa [cancelSchedule, cancelStamp] using h
  · intro hno
    have h := List.mem_map_of_mem
      (fun u : Task => if u.id = tid ∧ statusPending u.status = true then
        cancelStamp now u else u) hmem
    dsimp only at h
    rw [if_neg hno] at h
    simpa [cancelSchedule, cancelStamp] using h
  · intro hid
    have h := List.mem_map_of_mem
      (fun u : Task => if u.id = tid then retryReset u else u) hmem
    dsimp only at h
    rw [if_pos hid] at h
    simpa [retrySchedule, retryReset] using h
  · intro hid
    have h := List.mem_map_of_mem
      (fun u : Task => if u.id = tid then retryReset u else u) hmem
    dsimp only at h
    rw [if_neg hid] at h
    simpa [retrySchedule, retryReset] using h
  · intro hid
    refine ⟨?_, by omega, ?_⟩
    · have h := List.mem_map_of_mem
        (fun u : Task => if u.id = tid then executeNowReset now u else u) hmem
      dsimp only at h
      rw [if_pos hid] at h
      simpa [executeScheduleNow, executeNowReset] using h
    · intro now2 h2
      simp [taskDue, executeNowReset, statusPending]
      omega
  · intro hid
    have h := List.mem_map_of_mem
      (fun u : Task => if u.id = tid then executeNowReset now u else u) hmem
    dsimp only at h
    rw [if_neg hid] at h
    simpa [executeScheduleNow, executeNowReset] using h

/-- Witness for `manual_operations` at a concrete cancelled task. -/
theorem manual_operations_witness :
    retryReset { ghostTask with status := Status.cancelled } ∈
      (retrySchedule "w3"
        { ghostStore with schedules := [{ ghostTask with status := Status.cancelled }] }).schedules := by
  have h := manual_operations 2000 "w3"
    { ghostStore with schedules := [{ ghostTask with status := Status.cancelled }] }
    { ghostTask with status := Status.cancelled }
    (by simp) (by omega)
  exact h.2.2.1 rfl

theorem updateTask_comp (tid : String) (f g : Task → Task) (l : List Task)
    (hg : ∀ v, (g v).id = v.id) :
    updateTask tid f (updateTask tid g l) =
      updateTask tid (fun v => f (g v)) l := by
  unfold updateTask
  rw [List.map_map]
  apply List.map_congr_left
  intro v hv
  by_cases h : v.id = tid
  · simp [Function.comp, h, hg v]
  · simp [Function.comp, h]

theorem mem_updateTask_of_ne {l : List Task} {u : Task} {tid : String}
    (f : Task → Task) (h : u ∈ l) (hne : u.id ≠ tid) :
    u ∈ updateTask tid f l := by
  have hm := List.mem_map_of_mem (fun v : Task => if v.id = tid then f v else v) h
  dsimp only at hm
  rw [if_neg hne] at hm
  exact hm

theorem mem_updateTask_image {l : List Task} {u : Task} {tid : String}
    (f : Task → Task) (h : u ∈ l) :
    (if u.id = tid then f u else u) ∈ updateTask tid f l := by
  have hm := List.mem_map_of_mem (fun v : Task => if v.id = tid then f v else v) h
  dsimp only at hm
  exact hm

/-- The per-task record update of the success branch. -/
def successUpd (now : Nat) (rid : Option String) (v : Task) : Task :=
  { v with status := .success, startedAt := some now, completedAt := some now,
           errorMessage := none, remoteId := rid }

/-- The per-task record update of the retry branch. -/
def retryUpd (now rc : Nat) (msg : String) (v : Task) : Task :=
  { v with status := .retrying, startedAt := some now, retryCount := rc,
           errorMessage := some msg }

/-- The per-task record update of the terminal-failure branch. -/
def failUpd (now rc : Nat) (msg : String) (v : Task) : Task :=
  { v with status := .failed, startedAt := some now, completedAt := some now,
           retryCount := rc, errorMessage := some msg }

/-- The per-task record update of the missing-account branch. -/
def missingUpd (now : Nat) (v : Task) : Task :=
  { v with status := .failed, completedAt := some now,
           errorMessage := some "账号不存在或已删除" }

theorem processTask_schedules_spec (now : Nat) (reg : String → Option PublishFn)
    (aerr : Option String) (s : Store) (t : Task) :
    ∃ f : Task → Task,
      (processTask now reg aerr s t).schedules = updateTask t.id f s.schedules ∧
      (∀ v, (f v).id = v.id) ∧
      (∀ v, (f v).retryCount = v.retryCount ∨
        (f v).retryCount = t.retryCount + 1) := by
  unfold processTask
  split
  · refine ⟨missingUpd now, ?_, fun v => rfl, fun v => Or.inl rfl⟩
    rw [sendAlert_schedules]
    rfl
  · dsimp only
    split
    · next result heq =>
      refine ⟨successUpd now (orNull result.remoteId), ?_, fun v => rfl,
        fun v => Or.inl rfl⟩
      show updateTask t.id _ (updateTask t.id _ s.schedules) = _
      rw [updateTask_comp t.id]
      · rfl
      · exact fun v => rfl
    · next e heq =>
      by_cases hrc : t.retryCount + 1 ≤ 2
      · rw [if_pos hrc]
        refine ⟨retryUpd now (t.retryCount + 1) e.message, ?_, fun v => rfl,
          fun v => Or.inr rfl⟩
        show updateTask t.id _ (updateTask t.id _ s.schedules) = _
        rw [updateTask_comp t.id]
        · rfl
        · exact fun v => rfl
      · rw [if_neg hrc]
        refine ⟨failUpd now (t.retryCount + 1) e.message, ?_, fun v => rfl,
          fun v => Or.inr rfl⟩
        rw [sendAlert_schedules]
        show updateTask t.id _ (updateTask t.id _ s.schedules) = _
        rw [updateTask_comp t.id]
        · rfl
        · exact fun v => rfl

theorem statusPending_false_of_terminal {st : Status}
    (h : statusTerminal st = true) : statusPending st = false := by
  cases st <;> simp_all [statusPending, statusTerminal]

theorem foldDue_preserves_other (now : Nat) (reg : String → Option PublishFn)
    (aerr : Option String) (ts : List Task) (s : Store) (u : Task)
    (hu : u ∈ s.schedules) (hne : ∀ t2 ∈ ts, t2.id ≠ u.id) :
    u ∈ ((ts.foldl (fun acc t =>
      match t.publishAt with
      | none => acc
      | some ts2 => if ts2 > now then acc else processTask now reg aerr acc t)
      s).schedules) := by
  induction ts generalizing s with
  | nil => exact hu
  | cons t rest ih =>
    simp only [List.foldl]
    apply ih
    · cases hp : t.publishAt with
      | none => exact hu
      | some ts2 =>
        dsimp only
        by_cases hgt : ts2 > now
        · rw [if_pos hgt]; exact hu
        · rw [if_neg hgt]
          obtain ⟨f, hfs, hfid, hfrc⟩ := processTask_schedules_spec now reg aerr s t
          rw [hfs]
          exact mem_updateTask_of_ne f hu
            (fun hh => hne t (List.mem_cons_self t rest) (hh ▸ rfl))
    · intro t2 ht2
      exact hne t2 (List.mem_cons_of_mem _ ht2)

theorem foldDue_retry_mono (now : Nat) (reg : String → Option PublishFn)
    (aerr : Option String) (ts : List Task) (s : Store) (uid : String)
    (urc : Nat)
    (hinv : ∃ u2 ∈ s.schedules, u2.id = uid ∧ urc ≤ u2.retryCount)
    (hts : ∀ t2 ∈ ts, t2.id = uid → urc ≤ t2.retryCount + 1) :
    ∃ u2 ∈ ((ts.foldl (fun acc t =>
      match t.publishAt with
      | none => acc
      | some ts2 => if ts2 > now then acc else processTask now reg aerr acc t)
      s).schedules), u2.id = uid ∧ urc ≤ u2.retryCount := by
  induction ts generalizing s with
  | nil => exact hinv
  | cons t rest ih =>
    simp only [List.foldl]
    apply ih
    · obtain ⟨u2, hu2mem, hu2id, hu2rc⟩ := hinv
      cases hp : t.publishAt with
      | none => exact ⟨u2, hu2mem, hu2id, hu2rc⟩
      | some ts2 =>
        dsimp only
        by_cases hgt : ts2 > now
        · rw [if_pos hgt]; exact ⟨u2, hu2mem, hu2id, hu2rc⟩
        · rw [if_neg hgt]
          obtain ⟨f, hfs, hfid, hfrc⟩ := processTask_schedules_spec now reg aerr s t
          refine ⟨if u2.id = t.id then f u2 else u2, ?_, ?_, ?_⟩
          · rw [hfs]
            exact mem_updateTask_image f hu2mem
          · by_cases h : u2.id = t.id
            · rw [if_pos h, hfid u2]; exact hu2id
            · rw [if_neg h]; exact hu2id
          · by_cases h : u2.id = t.id
            · rw [if_pos h]
              rcases hfrc u2 with h1 | h1 <;> rw [h1]
              · exact hu2rc
              · exact hts t (List.mem_cons_self t rest) (h ▸ hu2id)
            · rw [if_neg h]; exact hu2rc
    · intro t2 ht2 hid2
      exact hts t2 (List.mem_cons_of_mem _ ht2) hid2

set_option maxHeartbeats 1000000 in
/-- C7: terminal tasks (`success`, `failed`, `cancelled`) are left unchanged
by a poll cycle; neither a poll cycle nor `cancel` nor adding a new schedule
ever decreases a task's `retryCount`; and `retry`/`executeNow` reset the task
to `scheduled` with `retryCount = 0`. -/
theorem terminal_preserved_retry_monotone :
    (∀ (now : Nat) (reg : String → Option PublishFn) (aerr : Option String)
       (s : Store) (u : Task),
      (s.schedules.map Task.id).Nodup → u ∈ s.schedules →
      statusTerminal u.status = true →
      u ∈ (runDueTasks now reg aerr s).schedules) ∧
    (∀ (now : Nat) (reg : String → Option PublishFn) (aerr : Option String)
       (s : Store) (u : Task),
      (s.schedules.map Task.id).Nodup → u ∈ s.schedules →
      ∃ u2 ∈ (runDueTasks now reg aerr s).schedules,
        u2.id = u.id ∧ u.retryCount ≤ u2.retryCount) ∧
    (∀ (now : Nat) (tid : String) (s : Store) (u : Task), u ∈ s.schedules →
      ∃ u2 ∈ (cancelSchedule now tid s).schedules,
        u2.id = u.id ∧ u.retryCount ≤ u2.retryCount) ∧
    (∀ (tid accountId contentType : String) (caid : Option String)
       (pa : Option Nat) (now : Nat) (s : Store) (u : Task), u ∈ s.schedules →
      u ∈ (schedulePublish tid accountId contentType caid pa now s).schedules) ∧
    (∀ (tid : String) (s : Store) (u : Task), u ∈ s.schedules → u.id = tid →
      retryReset u ∈ (retrySchedule tid s).schedules ∧
      (retryReset u).status = .scheduled ∧ (retryReset u).retryCount = 0) ∧
    (∀ (now : Nat) (tid : String) (s : Store) (u : Task),
      u ∈ s.schedules → u.id = tid →
      executeNowReset now u ∈ (executeScheduleNow now tid s).schedules ∧
      (executeNowReset now u).status = .scheduled ∧
      (executeNowReset now u).retryCount = 0) := by
  refine ⟨?_, ?_, ?_, ?_, ?_, ?_⟩
  · intro now reg aerr s u hnd hu hterm
    have hinj := List.inj_on_of_nodup_map hnd
    unfold runDueTasks
    dsimp only
    apply foldDue_preserves_other now reg aerr _ s u hu
    intro t2 ht2 hid
    have ht2s := List.mem_filter.mp ht2
    have : t2 = u := hinj ht2s.1 hu hid
    rw [this] at ht2s
    rw [statusPending_false_of_terminal hterm] at ht2s
    exact Bool.false_ne_true ht2s.2
  · intro now reg aerr s u hnd hu
    have hinj := List.inj_on_of_nodup_map hnd
    unfold runDueTasks
    dsimp only
    apply foldDue_retry_mono now reg aerr _ s u.id u.retryCount
      ⟨u, hu, rfl, Nat.le_refl _⟩
    intro t2 ht2 hid
    have ht2s := List.mem_filter.mp ht2
    have : t2 = u := hinj ht2s.1 hu hid
    rw [this]
    omega
  · intro now tid s u hu
    refine ⟨if u.id = tid ∧ statusPending u.status = true then
      cancelStamp now u else u, ?_, ?_, ?_⟩
    · have hm := List.mem_map_of_mem (fun v : Task =>
        if v.id = tid ∧ statusPending v.status = true then
          cancelStamp now v else v) hu
      dsimp only at hm
      exact hm
    · by_cases h : u.id = tid ∧ statusPending u.status = true <;>
        simp [h, cancelStamp]
    · by_cases h : u.id = tid ∧ statusPending u.status = true <;>
        simp [h, cancelStamp]
  · intro tid accountId contentType caid pa now s u hu
    exact List.mem_append_left _ hu
  · intro tid s u hu hid
    have hm := List.mem_map_of_mem (fun v : Task =>
      if v.id = tid then retryReset v else v) hu
    dsimp only at hm
    rw [if_pos hid] at hm
    exact ⟨hm, rfl, rfl⟩
  · intro now tid s u hu hid
    have hm := List.mem_map_of_mem (fun v : Task =>
      if v.id = tid then executeNowReset now v else v) hu
    dsimp only at hm
    rw [if_pos hid] at hm
    exact ⟨hm, rfl, rfl⟩

/-- Witness for `terminal_preserved_retry_monotone`: a cancelled task is left
untouched by a poll cycle on a concrete store. -/
theorem terminal_preserved_retry_monotone_witness :
    ({ ghostTask with status := Status.cancelled } : Task) ∈
      (runDueTasks 2000 (mockRegistry 2000) none
        { ghostStore with
            schedules := [{ ghostTask with status := Status.cancelled }] }).schedules := by
  have h := terminal_preserved_retry_monotone.1 2000 (mockRegistry 2000) none
    { ghostStore with schedules := [{ ghostTask with status := Status.cancelled }] }
    { ghostTask with status := Status.cancelled }
    (by simp) (by simp) rfl
  exact h

/-- Witness for `compliance_gate_characterization` at a concrete sensitive
content object. -/
theorem compliance_gate_characterization_witness :
    complianceCode (validateContentCompliance (some sensitiveAsset) "抖音" none) =
      some "CONTENT_VIOLATION" := by
  have h := compliance_gate_characterization sensitiveAsset "抖音" none
  exact h.1.mpr ⟨"违禁词", by decide, by decide⟩

/-- Witness for `alert_failure_swallowed` at a concrete store and call. -/
theorem alert_failure_swallowed_witness :
    sendAlert (some "boom") ⟨"e", "t1", none, none, none⟩ ghostStore =
      { sendAlert none ⟨"e", "t1", none, none, none⟩ ghostStore with
          taskLogs := (sendAlert none ⟨"e", "t1", none, none, none⟩ ghostStore).taskLogs ++
            [⟨"t1", .warn, "告警上报失败：" ++ "boom"⟩] } :=
  alert_failure_swallowed.1 "boom" ⟨"e", "t1", none, none, none⟩ ghostStore

end Matrix
